import Mathlib

/-!
Shallow embedding of the OCR-to-PDF pipeline of `ocr_llm_starter`:
the OCR batch route (`src/app/api/ocr/route.ts`), the PDF assembler
(`src/lib/pdf/jspdf.ts`), the PDF generation route
(`src/app/api/pdf/generate/route.ts`), the PDF error classifier
(`src/lib/pdf/error.ts`), the image validator (`src/lib/utils/shared.ts`
and the folder-selector component), and the server temp-file utilities.

Machine strings are Lean `String`s, byte contents are `List Nat`,
JavaScript exceptions are `Except String`, and the external effects the
code branches on (the Gemini call, `fs` operations, `jsPDF.addImage`)
are passed in explicitly as oracles.
-/

/-- `pat` occurs as a contiguous run inside the character list. -/
def listIncludes (pat : List Char) : List Char → Bool
  | [] => pat.isEmpty
  | c :: t => pat.isPrefixOf (c :: t) || listIncludes pat t

/-- JavaScript `s.includes(pat)`: substring containment. -/
def strIncludes (s pat : String) : Bool :=
  listIncludes pat.toList s.toList

/-- JavaScript `s.trim()`: strip whitespace from both ends. -/
def strTrim (s : String) : String :=
  ⟨((s.toList.dropWhile Char.isWhitespace).reverse.dropWhile
      Char.isWhitespace).reverse⟩

/-- JavaScript `s.startsWith(pat)`. -/
def strStartsWith (s pat : String) : Bool :=
  pat.toList.isPrefixOf s.toList

/-- `enum OcrErrorType` from `src/app/api/ocr/route.ts`. -/
inductive OcrErrorType where
  | API_KEY_INVALID
  | RATE_LIMIT_EXCEEDED
  | INVALID_IMAGE_FORMAT
  | PROCESSING_ERROR
  | UNKNOWN_ERROR
deriving DecidableEq

/-- The string value each `OcrErrorType` enum member carries in the source. -/
def ocrErrorTypeStr : OcrErrorType → String
  | .API_KEY_INVALID => "API_KEY_INVALID"
  | .RATE_LIMIT_EXCEEDED => "RATE_LIMIT_EXCEEDED"
  | .INVALID_IMAGE_FORMAT => "INVALID_IMAGE_FORMAT"
  | .PROCESSING_ERROR => "PROCESSING_ERROR"
  | .UNKNOWN_ERROR => "UNKNOWN_ERROR"

/-- `determineErrorType` from `src/app/api/ocr/route.ts` (lines 34-62),
applied to the error's message string (`error.message`; a non-`Error`
throw is read as the literal message `"Unknown error"` by the caller). -/
def determineErrorType (errorMessage : String) : OcrErrorType × String :=
  if strIncludes errorMessage "API key" then
    (.API_KEY_INVALID,
      "Invalid API key. Please check your Gemini API key configuration.")
  else if strIncludes errorMessage "quota" || strIncludes errorMessage "rate limit" then
    (.RATE_LIMIT_EXCEEDED,
      "API rate limit exceeded. Please try again later.")
  else if strIncludes errorMessage "format" || strIncludes errorMessage "image" then
    (.INVALID_IMAGE_FORMAT,
      "The provided image format is not supported by the API.")
  else
    (.UNKNOWN_ERROR,
      "An unexpected error occurred: " ++ errorMessage)

/-- `isCriticalError` from `src/app/api/ocr/route.ts` (lines 67-74). -/
def isCriticalError (message : String) : Bool :=
  strIncludes message "API key" ||
  strIncludes message "rate limit" ||
  strIncludes message "quota"

/-- `interface OcrResult` from `src/app/api/ocr/route.ts`. -/
structure OcrResult where
  fileName : String
  text : Option String := none
  error : Option String := none
  success : Bool
deriving DecidableEq

/-- Observable steps taken by `processImageWithGeminiApi`
(`src/app/api/ocr/route.ts`, lines 79-145): the temp-file write, the
Gemini call, the temp-file deletion attempt of the `finally` block and
the log entry its own `catch` emits when deletion fails. -/
inductive Act where
  | writeTemp
  | callApi
  | deleteTemp
  | logCleanupFailure
deriving DecidableEq

/-- A step of JavaScript code: the trace of acts it performs paired with
its value or the exception message it throws. -/
abbrev JsStep (α : Type) := List Act × Except String α

/-- Sequencing of two steps: the second runs only when the first did not
throw; traces concatenate. -/
def seqStep {α β : Type} (a : JsStep α) (f : α → JsStep β) : JsStep β :=
  match a with
  | (tr, .error e) => (tr, .error e)
  | (tr, .ok v) => ((tr ++ (f v).1 : List Act), (f v).2)

/-- `try { body } catch (e) { handler e }`. -/
def tryCatchStep {α : Type} (body : JsStep α) (handler : String → JsStep α) : JsStep α :=
  match body with
  | (tr, .ok v) => (tr, .ok v)
  | (tr, .error e) => ((tr ++ (handler e).1 : List Act), (handler e).2)

/-- `try { body } finally { fin }`: the finalizer runs on both exits; an
exception thrown by the finalizer replaces the body's outcome. -/
def tryFinallyStep {α : Type} (body : JsStep α) (fin : JsStep Unit) : JsStep α :=
  match fin with
  | (trf, .ok _) => ((body.1 ++ trf : List Act), body.2)
  | (trf, .error e) => ((body.1 ++ trf : List Act), .error e)

/-- The external effects one `processImageWithGeminiApi` call can observe:
whether `writeFile` throws, what the Gemini `generateContent` call does
(`.ok text` is the response with `response.text || ""` already applied),
and whether `cleanupTempFiles` throws for this path. -/
structure ProcEnv where
  writeThrows : Option String := none
  apiOutcome : Except String String
  deleteThrows : Option String := none

/-- The `writeFile` call of `processImageWithGeminiApi`. -/
def runWrite (env : ProcEnv) : JsStep Unit :=
  ([Act.writeTemp], match env.writeThrows with
    | some e => .error e
    | none => .ok ())

/-- The `genAI.models.generateContent` call of `processImageWithGeminiApi`. -/
def runApi (env : ProcEnv) : JsStep String :=
  ([Act.callApi], env.apiOutcome)

/-- The `cleanupTempFiles [tempFilePath]` call of the `finally` block. -/
def runDelete (env : ProcEnv) : JsStep Unit :=
  ([Act.deleteTemp], match env.deleteThrows with
    | some e => .error e
    | none => .ok ())

/-- `processImageWithGeminiApi` (`src/app/api/ocr/route.ts`, lines 79-145):
`try { write temp; call API; return text } catch (e) { throw
"{type} : {message}" } finally { try { cleanup } catch { log } }`. -/
def processImageWithGeminiApiM (env : ProcEnv) : JsStep String :=
  tryFinallyStep
    (tryCatchStep
      (seqStep (runWrite env) (fun _ => runApi env))
      (fun e =>
        let d := determineErrorType e
        ([], .error (ocrErrorTypeStr d.1 ++ " : " ++ d.2))))
    (tryCatchStep (runDelete env) (fun _ => ([Act.logCleanupFailure], .ok ())))

/-- One uploaded image as the OCR route sees it: its `file.name` plus the
environment of its processing call. -/
structure ImageFile where
  name : String
  env : ProcEnv

/-- The value or exception `processImageWithGeminiApi` produces for a file. -/
def processImageWithGeminiApi (f : ImageFile) : Except String String :=
  (processImageWithGeminiApiM f.env).2

/-- Whether the processing call for `f` returns rather than throws. -/
def procOk (f : ImageFile) : Bool :=
  match processImageWithGeminiApi f with
  | .ok _ => true
  | .error _ => false

/-- The single `OcrResult` the loop body of `processImagesSequentially`
pushes for an attempted file. -/
def attemptOutcome (f : ImageFile) : OcrResult :=
  match processImageWithGeminiApi f with
  | .ok t => { fileName := f.name, text := some t, success := true }
  | .error e => { fileName := f.name, error := some e, success := false }

/-- `processImagesSequentially` (`src/app/api/ocr/route.ts`, lines 150-208):
for each file in order, attempt it and push its outcome; on an exception,
`break` — whether `isCriticalError` holds (line 174) or not (line 179),
both catch branches leave the loop. -/
def processImagesSequentially : List ImageFile → List OcrResult
  | [] => []
  | f :: rest =>
    match processImageWithGeminiApi f with
    | .ok t =>
      { fileName := f.name, text := some t, success := true }
        :: processImagesSequentially rest
    | .error e =>
      let res : OcrResult := { fileName := f.name, error := some e, success := false }
      if isCriticalError e then [res] else [res]

/-- One entry of `formData.getAll('files')` in the OCR route `POST`:
either an actual `File` or some other value (`instanceof File` fails). -/
inductive FormPart where
  | filePart (f : ImageFile)
  | invalidPart

/-- The outcome the route pushes for a non-`File` part (lines 255-259). -/
def invalidOutcome : OcrResult :=
  { fileName := "unknown", error := some "Invalid file", success := false }

/-- The valid `File`s of the submitted parts, in submission order. -/
def validFilesOf (parts : List FormPart) : List ImageFile :=
  parts.filterMap fun p =>
    match p with
    | .filePart f => some f
    | .invalidPart => none

/-- The `results` array the OCR route `POST` returns in its 200 body
(`src/app/api/ocr/route.ts`, lines 249-269): the loop splits parts into
`invalidFiles` outcomes and `validFiles`, then
`results = [...invalidFiles, ...processedResults]`. -/
def ocrRouteResults (parts : List FormPart) : List OcrResult :=
  (parts.filterMap fun p =>
    match p with
    | .filePart _ => none
    | .invalidPart => some invalidOutcome)
  ++ processImagesSequentially (validFilesOf parts)

/-! ## PDF error classifier (`src/lib/pdf/error.ts`) -/

/-- `enum PdfErrorType` from `src/lib/pdf/error.ts`. -/
inductive PdfErrorType where
  | IMAGE_LOAD_ERROR
  | IMAGE_FORMAT_ERROR
  | PDF_GENERATION_ERROR
  | FILE_SYSTEM_ERROR
  | UNKNOWN_ERROR
deriving DecidableEq

/-- `class PdfGenerationError` from `src/lib/pdf/error.ts`: the message
and type it carries (the optional `details` record only reaches logs). -/
structure PdfGenerationError where
  message : String
  type : PdfErrorType
deriving DecidableEq

/-- An error value reaching `handlePdfError`: either an existing
`PdfGenerationError` or a raw exception with a message (a throw with no
usable `message` property reads as `"Unknown PDF generation error"`). -/
inductive RawPdfError where
  | already (e : PdfGenerationError)
  | raw (message : String)

/-- `handlePdfError` from `src/lib/pdf/error.ts` (lines 57-103). -/
def handlePdfError : RawPdfError → PdfGenerationError
  | .already e => e
  | .raw message =>
    if strIncludes message "addImage" || strIncludes message "image" then
      if strIncludes message "type" || strIncludes message "format" then
        { message := "The image format is not supported for PDF generation",
          type := .IMAGE_FORMAT_ERROR }
      else
        { message := "Failed to load or process image for PDF",
          type := .IMAGE_LOAD_ERROR }
    else if strIncludes message "ENOENT" || strIncludes message "file" then
      { message := "File system error during PDF generation",
        type := .FILE_SYSTEM_ERROR }
    else
      { message := "Error generating PDF document",
        type := .PDF_GENERATION_ERROR }

/-- `getUserFriendlyErrorMessage` from `src/lib/pdf/error.ts` (lines 110-139). -/
def getUserFriendlyErrorMessage (error : PdfGenerationError) : String :=
  match error.type with
  | .IMAGE_LOAD_ERROR =>
    "Unable to load one or more images for the PDF. Please check the image files and try again."
  | .IMAGE_FORMAT_ERROR =>
    "One or more images are in an unsupported format. Please use JPG or PNG images."
  | .FILE_SYSTEM_ERROR =>
    "A file system error occurred while generating the PDF. Please try again later."
  | .PDF_GENERATION_ERROR =>
    "An error occurred while creating the PDF document. Please try again later."
  | .UNKNOWN_ERROR =>
    "An unexpected error occurred during PDF generation. Please try again later."

/-! ## PDF batch assembler (`src/lib/pdf/jspdf.ts`) -/

/-- One element of the `imageTextPairs` argument of `createMultiPagePdf`. -/
structure ImageTextPair where
  imageDataUrl : String
  extractedText : String
  filename : String
deriving DecidableEq

/-- Whether `jsPDF.addImage` throws for a given data URL, and with what
message: the library's behavior, passed in as an oracle. `none` means the
embedding succeeds. -/
abbrev AddImageOracle := String → Option String

/-- What one content page of the generated document shows in the image
region and the text region. -/
structure PdfPage where
  /-- `true` when the light-gray placeholder rectangle was filled. -/
  grayRect : Bool
  /-- The placeholder caption drawn over the image region, when any. -/
  placeholderText : Option String
  /-- `true` when `doc.addImage` ran without throwing. -/
  imageEmbedded : Bool
  /-- The title line: `Extracted Text from: {filename}`. -/
  titleText : String
  /-- The body handed to `splitTextToSize` (the fallback already applied). -/
  bodyText : String
deriving DecidableEq

/-- A page of the generated document: one content page per pair, plus the
optional trailing error-summary page. -/
inductive Page where
  | content (p : PdfPage)
  | summary (processedLine : String) (errorLines : List String)
deriving DecidableEq

/-- The loop body of `createMultiPagePdf` (lines 179-261) for one pair:
the page it draws and the error line it pushes onto `imageErrors`, if any. -/
def renderContentPage (oracle : AddImageOracle) (pair : ImageTextPair) :
    PdfPage × Option String :=
  let bodyText :=
    if pair.extractedText = "" then "No text could be extracted from this image."
    else pair.extractedText
  let titleText := "Extracted Text from: " ++ pair.filename
  if pair.imageDataUrl ≠ "" ∧ strTrim pair.imageDataUrl ≠ "" then
    match oracle pair.imageDataUrl with
    | none =>
      ({ grayRect := false, placeholderText := none, imageEmbedded := true,
         titleText, bodyText }, none)
    | some cause =>
      ({ grayRect := true, placeholderText := some "[ Image could not be displayed ]",
         imageEmbedded := false, titleText, bodyText },
       some ("Failed to add image " ++ pair.filename ++ ": " ++ cause))
  else
    ({ grayRect := true, placeholderText := some "[ No image data available ]",
       imageEmbedded := false, titleText, bodyText }, none)

/-- The error line `renderContentPage` records for a pair, if any. -/
def pairEmbedError (oracle : AddImageOracle) (pair : ImageTextPair) : Option String :=
  (renderContentPage oracle pair).2

/-- The first line of the summary page:
`Successfully processed {N-K} out of {N} images.` -/
def summaryProcessedLine (total errors : Nat) : String :=
  "Successfully processed " ++ toString (total - errors) ++ " out of "
    ++ toString total ++ " images."

/-- `createMultiPagePdf` from `src/lib/pdf/jspdf.ts` (lines 143-311):
throws `PdfGenerationError` on an empty pair list; otherwise renders one
content page per pair in order, collecting `imageErrors`, and appends one
summary page when `imageErrors` is non-empty. -/
def createMultiPagePdf (oracle : AddImageOracle) (imageTextPairs : List ImageTextPair) :
    Except PdfGenerationError (List Page) :=
  if imageTextPairs.isEmpty then
    .error { message := "No images provided for PDF generation",
             type := .PDF_GENERATION_ERROR }
  else
    let imageErrors := imageTextPairs.filterMap (pairEmbedError oracle)
    let contentPages := imageTextPairs.map
      (fun pair => Page.content (renderContentPage oracle pair).1)
    if imageErrors.isEmpty then
      .ok contentPages
    else
      .ok (contentPages ++
        [Page.summary (summaryProcessedLine imageTextPairs.length imageErrors.length)
          imageErrors])

/-! ## PDF generation route (`src/app/api/pdf/generate/route.ts`) -/

/-- One element of the `ocrResults` array of a `/pdf/generate` request. -/
structure PdfOcrResult where
  fileName : String
  text : Option String := none
  error : Option String := none
  success : Bool
  imageUrl : Option String := none
deriving DecidableEq

/-- JavaScript truthiness of an optional string field: present and non-empty. -/
def truthyStr : Option String → Bool
  | some s => s ≠ ""
  | none => false

/-- The filter of the route (lines 45-47):
`result.success && result.text && result.fileName`. -/
def successfulResultsOf (ocrResults : List PdfOcrResult) : List PdfOcrResult :=
  ocrResults.filter fun r => r.success && truthyStr r.text && r.fileName ≠ ""

/-- The image-URL normalization of the route (lines 64-83): keep the URL
only when it is non-empty and starts with `data:`; anything else becomes
the empty string. -/
def normalizeImageUrl (r : PdfOcrResult) : String :=
  match r.imageUrl with
  | some u => if u ≠ "" then (if strStartsWith u "data:" then u else "") else ""
  | none => ""

/-- The pair the route builds for one successful result (lines 84-88). -/
def buildPair (r : PdfOcrResult) : ImageTextPair :=
  { imageDataUrl := normalizeImageUrl r,
    extractedText := r.text.getD "",
    filename := r.fileName }

/-- The response of the `/pdf/generate` `POST`. -/
inductive PdfResponse where
  | okPdf (doc : List Page)
  | badRequest (error : String)
  | serverError (error : String) (errorType : PdfErrorType)
deriving DecidableEq

/-- `POST` of `src/app/api/pdf/generate/route.ts` (lines 19-172), for a
request whose body parsed to the given `ocrResults` array. -/
def pdfGeneratePOST (oracle : AddImageOracle) (ocrResults : List PdfOcrResult) :
    PdfResponse :=
  if ocrResults.isEmpty then
    .badRequest "No OCR results provided for PDF generation"
  else
    let successfulResults := successfulResultsOf ocrResults
    if successfulResults.isEmpty then
      .badRequest "No successful OCR results found for PDF generation"
    else
      let imageTextPairs := successfulResults.map buildPair
      match createMultiPagePdf oracle imageTextPairs with
      | .ok doc => .okPdf doc
      | .error e =>
        let pdfError := handlePdfError (.already e)
        .serverError pdfError.message pdfError.type

/-! ## Image validator (`src/lib/utils/shared.ts` and the folder selector) -/

/-- A candidate file as the validator sees it: its name and byte content. -/
structure CandidateFile where
  name : String
  bytes : List Nat
deriving DecidableEq

/-- `headerView[i] === v` on the `Uint8Array` of the first 12 bytes:
reading past the end gives `undefined`, which equals no number. -/
def checkByte (bytes : List Nat) (i v : Nat) : Bool :=
  bytes.get? i == some v

/-- `analyzeMimeType` from `src/lib/utils/shared.ts` (lines 104-153):
magic-number sniffing over the first 12 bytes. -/
def analyzeMimeType (bytes : List Nat) : Bool :=
  if checkByte bytes 0 0xFF && checkByte bytes 1 0xD8 && checkByte bytes 2 0xFF then
    true
  else if checkByte bytes 0 0x89 && checkByte bytes 1 0x50 &&
      checkByte bytes 2 0x4E && checkByte bytes 3 0x47 &&
      checkByte bytes 4 0x0D && checkByte bytes 5 0x0A &&
      checkByte bytes 6 0x1A && checkByte bytes 7 0x0A then
    true
  else if checkByte bytes 0 0x52 && checkByte bytes 1 0x49 &&
      checkByte bytes 2 0x46 && checkByte bytes 3 0x46 &&
      checkByte bytes 8 0x57 && checkByte bytes 9 0x45 &&
      checkByte bytes 10 0x42 && checkByte bytes 11 0x50 then
    true
  else if (checkByte bytes 4 0x66 && checkByte bytes 5 0x74 &&
      checkByte bytes 6 0x79 && checkByte bytes 7 0x70) &&
      ((checkByte bytes 8 0x68 && checkByte bytes 9 0x65 &&
        checkByte bytes 10 0x69 && checkByte bytes 11 0x63) ||
       (checkByte bytes 8 0x68 && checkByte bytes 9 0x65 &&
        checkByte bytes 10 0x69 && checkByte bytes 11 0x66) ||
       (checkByte bytes 8 0x6D && checkByte bytes 9 0x69 &&
        checkByte bytes 10 0x66 && checkByte bytes 11 0x31)) then
    true
  else
    false

/-- `hasValidImageExtension` from `src/lib/utils/shared.ts` (lines 179-189). -/
def hasValidImageExtension (fileName : String) : Bool :=
  let lowerName := fileName.toLower
  lowerName.endsWith ".jpg" ||
  lowerName.endsWith ".jpeg" ||
  lowerName.endsWith ".png" ||
  lowerName.endsWith ".webp" ||
  lowerName.endsWith ".heic" ||
  lowerName.endsWith ".heif"

/-- The validation decision of `processFilesWithErrorTracking` (folder
selector component, `src/unnamed/part_004` lines 247-299): a file reaches
the result list iff none of the three `continue`s fires — zero size,
invalid extension, invalid magic number — and the subsequent preview
creation (an external browser effect, not validation) succeeds. -/
def validationAccepts (f : CandidateFile) : Bool :=
  if f.bytes.length = 0 then false
  else if !hasValidImageExtension f.name then false
  else if !analyzeMimeType f.bytes then false
  else true

/-- Modelled from the spec's words for the claim's right-hand side: the
filename ends case-insensitively in one of the six allowed extensions. -/
def specAllowedExtension (name : String) : Prop :=
  [".jpg", ".jpeg", ".png", ".webp", ".heic", ".heif"].any
    (fun e => name.toLower.endsWith e)

/-- Modelled from the spec's words: the first 12 bytes match one of the
four signatures (JPEG `FF D8 FF`; PNG `89 50 4E 47 0D 0A 1A 0A`; WebP
`RIFF....WEBP`; HEIC/HEIF `ftyp` at bytes 4-7 followed by `heic`, `heif`
or `mif1` at bytes 8-11). -/
def specSignatureMatch (bytes : List Nat) : Prop :=
  bytes.take 3 = [0xFF, 0xD8, 0xFF] ∨
  bytes.take 8 = [0x89, 0x50, 0x4E, 0x47, 0x0D, 0x0A, 0x1A, 0x0A] ∨
  (bytes.take 4 = [0x52, 0x49, 0x46, 0x46] ∧
    (bytes.drop 8).take 4 = [0x57, 0x45, 0x42, 0x50]) ∨
  ((bytes.drop 4).take 4 = [0x66, 0x74, 0x79, 0x70] ∧
    ((bytes.drop 8).take 4 = [0x68, 0x65, 0x69, 0x63] ∨
     (bytes.drop 8).take 4 = [0x68, 0x65, 0x69, 0x66] ∨
     (bytes.drop 8).take 4 = [0x6D, 0x69, 0x66, 0x31]))

/-! ## Temp-file naming and the orphan scan (`src/unnamed/part_002`) -/

/-- Lowercase hexadecimal digit, as produced by `uuid`'s `v4()`. -/
def isLowerHex (c : Char) : Bool :=
  ('0' ≤ c && c ≤ '9') || ('a' ≤ c && c ≤ 'f')

/-- Hexadecimal digit of the scan regex's `[0-9a-f]` class under the `i`
flag: either case accepted. -/
def isHexDigitCI (c : Char) : Bool :=
  ('0' ≤ c && c ≤ '9') || ('a' ≤ c && c ≤ 'f') || ('A' ≤ c && c ≤ 'F')

/-- Consume exactly `n` characters satisfying `p`, returning the rest. -/
def matchRun (p : Char → Bool) : Nat → List Char → Option (List Char)
  | 0, rest => some rest
  | _ + 1, [] => none
  | n + 1, c :: rest => if p c then matchRun p n rest else none

/-- Consume one character satisfying `p`, returning the rest. -/
def matchOne (p : Char → Bool) : List Char → Option (List Char)
  | [] => none
  | c :: rest => if p c then some rest else none

/-- The test of the case-insensitive scan regex
`^[0-9a-f]{8}-[0-9a-f]{4}-4[0-9a-f]{3}-[89ab][0-9a-f]{3}-[0-9a-f]{12}-`
from `scanForLeftoverTempFiles` (`src/unnamed/part_002`, line 100). -/
def uuidPatternTest (s : String) : Bool :=
  (matchRun isHexDigitCI 8 s.toList
    |>.bind (matchOne (fun c => c == '-'))
    |>.bind (matchRun isHexDigitCI 4)
    |>.bind (matchOne (fun c => c == '-'))
    |>.bind (matchOne (fun c => c == '4'))
    |>.bind (matchRun isHexDigitCI 3)
    |>.bind (matchOne (fun c => c == '-'))
    |>.bind (matchOne (fun c => c == '8' || c == '9' || c == 'a' || c == 'b' ||
      c == 'A' || c == 'B'))
    |>.bind (matchRun isHexDigitCI 3)
    |>.bind (matchOne (fun c => c == '-'))
    |>.bind (matchRun isHexDigitCI 12)
    |>.bind (matchOne (fun c => c == '-'))).isSome

/-- A version-4 UUID as `uuid`'s `v4()` renders it: five lowercase-hex
groups of lengths 8, 4, 4, 4 and 12 joined by dashes, where the third
group starts with `4` and the fourth with a variant character in
`{8, 9, a, b}`. -/
structure UuidV4 where
  g1 : List Char
  g2 : List Char
  g3 : List Char
  variantChar : Char
  g4 : List Char
  g5 : List Char

/-- Well-formedness of the group contents of a rendered v4 UUID. -/
def UuidV4.Valid (u : UuidV4) : Prop :=
  u.g1.length = 8 ∧ u.g1.all isLowerHex = true ∧
  u.g2.length = 4 ∧ u.g2.all isLowerHex = true ∧
  u.g3.length = 3 ∧ u.g3.all isLowerHex = true ∧
  (u.variantChar = '8' ∨ u.variantChar = '9' ∨ u.variantChar = 'a' ∨
    u.variantChar = 'b') ∧
  u.g4.length = 3 ∧ u.g4.all isLowerHex = true ∧
  u.g5.length = 12 ∧ u.g5.all isLowerHex = true

/-- The rendered UUID string `xxxxxxxx-xxxx-4xxx-yxxx-xxxxxxxxxxxx`. -/
def UuidV4.render (u : UuidV4) : String :=
  ⟨u.g1 ++ '-' :: u.g2 ++ '-' :: '4' :: u.g3 ++ '-' :: u.variantChar :: u.g4
    ++ '-' :: u.g5⟩

/-- `extractFilename` / the inline `file.name.split(/[\/\\]/).pop() || file.name`
of `processImageWithGeminiApi` (`src/app/api/ocr/route.ts`, line 82). -/
def extractFilename (path : String) : String :=
  let segs := path.split (fun c => c == '/' || c == '\\')
  match segs.getLast? with
  | some last => if last = "" then path else last
  | none => path

/-- The temp file name `` `${uuidv4()}-${fileName}` `` of
`processImageWithGeminiApi` (`src/app/api/ocr/route.ts`, line 83),
relative to the temp directory. -/
def tempFileName (u : UuidV4) (originalName : String) : String :=
  u.render ++ "-" ++ extractFilename originalName

/-- `scanForLeftoverTempFiles` (`src/unnamed/part_002`, lines 88-116) on
the outcome of `fs.promises.readdir`: the whole body is wrapped in
`try/catch` and the catch returns `[]`. -/
def scanForLeftoverTempFiles (readdirOutcome : Except String (List String)) :
    List String :=
  match readdirOutcome with
  | .error _ => []
  | .ok files => files.filter uuidPatternTest

/-- The per-path filesystem state `cleanupTempFiles` runs against:
whether the file exists and whether `unlink` would throw for it. -/
structure TempPathState where
  path : String
  present : Bool
  unlinkThrows : Bool

/-- `cleanupTempFiles` (`src/unnamed/part_002`, lines 53-82): each
deletion is wrapped in its own `try/catch`, so the loop never throws;
returns `(successCount, failureCount)`. -/
def cleanupTempFiles : List TempPathState → Nat × Nat
  | [] => (0, 0)
  | f :: rest =>
    let (s, fails) := cleanupTempFiles rest
    if f.present then
      if f.unlinkThrows then (s, fails + 1) else (s + 1, fails)
    else
      (s, fails)

/-- `cleanupLeftoverTempFiles` (`src/unnamed/part_002`, lines 122-142) in
exception-explicit form: both directory scans and the cleanup pass are
given as oracles, and all of its callees catch their own failures, so the
composition is expressible in `Except` yet never left in the error state.
The result is `leftoverFiles.length - remainingFiles.length`. -/
def cleanupLeftoverTempFiles (readdir1 readdir2 : Except String (List String))
    (state : String → Bool × Bool) : Except String Nat :=
  let leftoverFiles := scanForLeftoverTempFiles readdir1
  if leftoverFiles.isEmpty then
    .ok 0
  else
    let _counts := cleanupTempFiles (leftoverFiles.map fun p =>
      { path := p, present := (state p).1, unlinkThrows := (state p).2 })
    let remainingFiles := scanForLeftoverTempFiles readdir2
    .ok (leftoverFiles.length - remainingFiles.length)

/-- Erase the cleanup-failure component of a file's environment. -/
def clearDeleteThrows (f : ImageFile) : ImageFile :=
  { f with env := { f.env with deleteThrows := none } }

/-! ## Helper lemmas -/

theorem listIsPrefixOf_self (l : List Char) : l.isPrefixOf l = true := by
  induction l with
  | nil => rfl
  | cons c t ih => simp [List.isPrefixOf, ih]

theorem listIncludes_append_self (pre pat : List Char) :
    listIncludes pat (pre ++ pat) = true := by
  induction pre with
  | nil =>
    cases pat with
    | nil => rfl
    | cons c t => simp [listIncludes, listIsPrefixOf_self]
  | cons c t ih => simp [listIncludes, ih]

theorem processImagesSequentially_eq (files : List ImageFile) :
    processImagesSequentially files =
      (files.takeWhile procOk).map attemptOutcome ++
      (match files.dropWhile procOk with
       | [] => []
       | bad :: _ => [attemptOutcome bad]) := by
  induction files with
  | nil => rfl
  | cons f rest ih =>
    cases h : processImageWithGeminiApi f with
    | ok t =>
      have hp : procOk f = true := by simp [procOk, h]
      simp [processImagesSequentially, h, List.takeWhile_cons, List.dropWhile_cons,
        hp, attemptOutcome, ih]
    | error e =>
      have hp : procOk f = false := by simp [procOk, h]
      simp [processImagesSequentially, h, List.takeWhile_cons, List.dropWhile_cons,
        hp, attemptOutcome]

theorem filterMap_invalid_eq_replicate (parts : List FormPart) :
    (parts.filterMap fun p => match p with
      | .filePart _ => none
      | .invalidPart => some invalidOutcome) =
    List.replicate (parts.countP fun p => match p with
      | .filePart _ => false
      | .invalidPart => true) invalidOutcome := by
  induction parts with
  | nil => rfl
  | cons p rest ih =>
    cases p <;>
      simp [List.filterMap_cons, List.countP_cons, ih, List.replicate_succ]

theorem processImage_clearDeleteThrows (f : ImageFile) :
    processImageWithGeminiApi (clearDeleteThrows f) = processImageWithGeminiApi f := by
  rcases f with ⟨n, w, api, d⟩
  cases w <;> cases api <;> cases d <;> rfl

theorem take3_eq_iff (l : List Nat) (a b c : Nat) :
    l.take 3 = [a, b, c] ↔
      (l.get? 0 = some a ∧ l.get? 1 = some b ∧ l.get? 2 = some c) := by
  rcases l with _ | ⟨x0, _ | ⟨x1, _ | ⟨x2, t⟩⟩⟩ <;> simp [List.take]

theorem take4_eq_iff (l : List Nat) (a b c d : Nat) :
    l.take 4 = [a, b, c, d] ↔
      (l.get? 0 = some a ∧ l.get? 1 = some b ∧ l.get? 2 = some c ∧
       l.get? 3 = some d) := by
  rcases l with _ | ⟨x0, _ | ⟨x1, _ | ⟨x2, _ | ⟨x3, t⟩⟩⟩⟩ <;> simp [List.take]

theorem take8_eq_iff (l : List Nat) (a b c d e f g h : Nat) :
    l.take 8 = [a, b, c, d, e, f, g, h] ↔
      (l.get? 0 = some a ∧ l.get? 1 = some b ∧ l.get? 2 = some c ∧
       l.get? 3 = some d ∧ l.get? 4 = some e ∧ l.get? 5 = some f ∧
       l.get? 6 = some g ∧ l.get? 7 = some h) := by
  rcases l with _ | ⟨x0, _ | ⟨x1, _ | ⟨x2, _ | ⟨x3, _ | ⟨x4, _ | ⟨x5, _ |
    ⟨x6, _ | ⟨x7, t⟩⟩⟩⟩⟩⟩⟩⟩ <;> simp [List.take]

theorem analyzeMimeType_eq_or (bytes : List Nat) :
    analyzeMimeType bytes =
      ((checkByte bytes 0 0xFF && checkByte bytes 1 0xD8 && checkByte bytes 2 0xFF) ||
       (checkByte bytes 0 0x89 && checkByte bytes 1 0x50 &&
        checkByte bytes 2 0x4E && checkByte bytes 3 0x47 &&
        checkByte bytes 4 0x0D && checkByte bytes 5 0x0A &&
        checkByte bytes 6 0x1A && checkByte bytes 7 0x0A) ||
       (checkByte bytes 0 0x52 && checkByte bytes 1 0x49 &&
        checkByte bytes 2 0x46 && checkByte bytes 3 0x46 &&
        checkByte bytes 8 0x57 && checkByte bytes 9 0x45 &&
        checkByte bytes 10 0x42 && checkByte bytes 11 0x50) ||
       ((checkByte bytes 4 0x66 && checkByte bytes 5 0x74 &&
         checkByte bytes 6 0x79 && checkByte bytes 7 0x70) &&
        ((checkByte bytes 8 0x68 && checkByte bytes 9 0x65 &&
          checkByte bytes 10 0x69 && checkByte bytes 11 0x63) ||
         (checkByte bytes 8 0x68 && checkByte bytes 9 0x65 &&
          checkByte bytes 10 0x69 && checkByte bytes 11 0x66) ||
         (checkByte bytes 8 0x6D && checkByte bytes 9 0x69 &&
          checkByte bytes 10 0x66 && checkByte bytes 11 0x31)))) := by
  unfold analyzeMimeType
  generalize (checkByte bytes 0 0xFF && checkByte bytes 1 0xD8 &&
    checkByte bytes 2 0xFF) = c1
  generalize (checkByte bytes 0 0x89 && checkByte bytes 1 0x50 &&
      checkByte bytes 2 0x4E && checkByte bytes 3 0x47 &&
      checkByte bytes 4 0x0D && checkByte bytes 5 0x0A &&
      checkByte bytes 6 0x1A && checkByte bytes 7 0x0A) = c2
  generalize (checkByte bytes 0 0x52 && checkByte bytes 1 0x49 &&
      checkByte bytes 2 0x46 && checkByte bytes 3 0x46 &&
      checkByte bytes 8 0x57 && checkByte bytes 9 0x45 &&
      checkByte bytes 10 0x42 && checkByte bytes 11 0x50) = c3
  generalize ((checkByte bytes 4 0x66 && checkByte bytes 5 0x74 &&
      checkByte bytes 6 0x79 && checkByte bytes 7 0x70) &&
      ((checkByte bytes 8 0x68 && checkByte bytes 9 0x65 &&
        checkByte bytes 10 0x69 && checkByte bytes 11 0x63) ||
       (checkByte bytes 8 0x68 && checkByte bytes 9 0x65 &&
        checkByte bytes 10 0x69 && checkByte bytes 11 0x66) ||
       (checkByte bytes 8 0x6D && checkByte bytes 9 0x69 &&
        checkByte bytes 10 0x66 && checkByte bytes 11 0x31))) = c4
  cases c1 <;> cases c2 <;> cases c3 <;> cases c4 <;> rfl

theorem analyzeMimeType_iff (bytes : List Nat) :
    analyzeMimeType bytes = true ↔ specSignatureMatch bytes := by
  rw [analyzeMimeType_eq_or]
  simp only [Bool.or_eq_true, Bool.and_eq_true, checkByte, beq_iff_eq,
    specSignatureMatch, take3_eq_iff, take4_eq_iff, take8_eq_iff,
    List.get?_drop]
  simp [and_assoc, or_assoc]

theorem hasValidImageExtension_iff (name : String) :
    hasValidImageExtension name = true ↔ specAllowedExtension name := by
  simp [hasValidImageExtension, specAllowedExtension, or_assoc]

/-! ## Claim theorems -/

/-- C1: `processImagesSequentially` attempts files one at a time in input
order, appends exactly one `OcrResult` per attempted file and halts after
the first file whose processing throws — critical or not — so files after
the first failing one are never attempted and have no outcome; in
particular `[ok1.jpg, bad.jpg (API-key error), third.jpg]` yields exactly
the success for `ok1.jpg` followed by the `API_KEY_INVALID` failure for
`bad.jpg`, and `third.jpg` is absent. -/
theorem C1_batch_halts_at_first_failure :
    (∀ files : List ImageFile,
      processImagesSequentially files =
        (files.takeWhile procOk).map attemptOutcome ++
        (match files.dropWhile procOk with
         | [] => []
         | bad :: _ => [attemptOutcome bad])) ∧
    processImagesSequentially
      [⟨"ok1.jpg", { apiOutcome := .ok "text one" }⟩,
       ⟨"bad.jpg", { apiOutcome := .error "API key not valid" }⟩,
       ⟨"third.jpg", { apiOutcome := .ok "text three" }⟩] =
      [{ fileName := "ok1.jpg", text := some "text one", success := true },
       { fileName := "bad.jpg",
         error := some "API_KEY_INVALID : Invalid API key. Please check your Gemini API key configuration.",
         success := false }] := by
  exact ⟨processImagesSequentially_eq, by rfl⟩

/-- C7 counterexample: for the submitted parts
`[File "a.jpg", non-File, File "b.jpg"]`, where both files succeed, the
route's `results` array starts with the outcome of the second submitted
part (the invalid one), not with the outcome of the first submitted part,
because invalid-part outcomes are prepended to the processed results. -/
theorem C7_counterexample :
    ocrRouteResults
      [.filePart ⟨"a.jpg", { apiOutcome := .ok "ta" }⟩, .invalidPart,
       .filePart ⟨"b.jpg", { apiOutcome := .ok "tb" }⟩] =
      [invalidOutcome,
       { fileName := "a.jpg", text := some "ta", success := true },
       { fileName := "b.jpg", text := some "tb", success := true }] ∧
    (ocrRouteResults
      [.filePart ⟨"a.jpg", { apiOutcome := .ok "ta" }⟩, .invalidPart,
       .filePart ⟨"b.jpg", { apiOutcome := .ok "tb" }⟩]).get? 0 ≠
      some { fileName := "a.jpg", text := some "ta", success := true } := by
  constructor
  · rfl
  · intro h
    simp [ocrRouteResults, validFilesOf, processImagesSequentially,
      processImageWithGeminiApi, processImageWithGeminiApiM, tryFinallyStep,
      tryCatchStep, seqStep, runWrite, runApi, runDelete, invalidOutcome] at h

/-- C7 amended: the OCR route's `results` keep submission order only
within each group — the outcomes of the non-`File` parts (one fixed
`Invalid file` outcome each) come first, followed by the outcomes of the
valid files in submission order, truncated after the first failure. When
every submitted part is a valid `File`, this is submission order. -/
theorem C7_amended_results_grouped (parts : List FormPart) :
    ocrRouteResults parts =
      List.replicate (parts.countP fun p => match p with
        | .filePart _ => false
        | .invalidPart => true) invalidOutcome ++
      (((validFilesOf parts).takeWhile procOk).map attemptOutcome ++
       (match (validFilesOf parts).dropWhile procOk with
        | [] => []
        | bad :: _ => [attemptOutcome bad])) := by
  unfold ocrRouteResults
  rw [filterMap_invalid_eq_replicate, processImagesSequentially_eq]

/-- C8: the temp-file deletion of `processImageWithGeminiApi` is attempted
on every exit path (API success or throw, write success or throw), its own
failure is caught inside the `finally` block and replaced by a log entry,
the function's outcome never depends on whether deletion failed, the
batch's outcome list never depends on any file's deletion failure, and the
post-batch orphan cleanup always returns a count rather than throwing. -/
theorem C8_cleanup_every_path :
    (∀ env : ProcEnv, Act.deleteTemp ∈ (processImageWithGeminiApiM env).1) ∧
    (∀ env : ProcEnv, ∀ d d' : Option String,
      (processImageWithGeminiApiM { env with deleteThrows := d }).2 =
      (processImageWithGeminiApiM { env with deleteThrows := d' }).2) ∧
    (∀ env : ProcEnv,
      (tryCatchStep (runDelete env)
        (fun _ => ([Act.logCleanupFailure], .ok ()))).2 = .ok ()) ∧
    (∀ files : List ImageFile,
      processImagesSequentially (files.map clearDeleteThrows) =
        processImagesSequentially files) ∧
    (∀ readdir1 readdir2 state,
      ∃ n, cleanupLeftoverTempFiles readdir1 readdir2 state = .ok n) := by
  refine ⟨?_, ?_, ?_, ?_, ?_⟩
  · rintro ⟨w, api, d⟩
    cases w <;> cases api <;> cases d <;>
      simp [processImageWithGeminiApiM, tryFinallyStep, tryCatchStep, seqStep,
        runWrite, runApi, runDelete]
  · rintro ⟨w, api, d⟩ d1 d2
    cases w <;> cases api <;> cases d1 <;> cases d2 <;> rfl
  · rintro ⟨w, api, d⟩
    cases d <;> rfl
  · intro files
    induction files with
    | nil => rfl
    | cons f rest ih =>
      cases h : processImageWithGeminiApi f with
      | ok t =>
        simp only [List.map_cons, processImagesSequentially]
        rw [processImage_clearDeleteThrows, h]
        dsimp only [clearDeleteThrows]
        rw [ih]
      | error e =>
        simp only [List.map_cons, processImagesSequentially]
        rw [processImage_clearDeleteThrows, h]
        dsimp only [clearDeleteThrows]
  · intro readdir1 readdir2 state
    dsimp only [cleanupLeftoverTempFiles]
    split <;> exact ⟨_, rfl⟩

/-- C6 counterexample: two raw errors whose messages both classify to
`UNKNOWN_ERROR` receive different messages from `determineErrorType`, and
the returned message embeds the raw exception text. -/
theorem C6_counterexample :
    (determineErrorType "boom alpha").1 = (determineErrorType "boom beta").1 ∧
    (determineErrorType "boom alpha").2 ≠ (determineErrorType "boom beta").2 ∧
    strIncludes (determineErrorType "boom alpha").2 "boom alpha" = true := by
  refine ⟨by decide, by decide, by decide⟩

/-- C6 amended: for every kind other than `UNKNOWN_ERROR`, the OCR-stage
classifier returns one fixed sentence per kind (any two messages
classifying to the same non-unknown kind receive identical messages), and
the PDF-stage `getUserFriendlyErrorMessage` is a function of the kind
alone for all kinds; but an OCR-stage `UNKNOWN_ERROR` message embeds the
raw exception text. -/
theorem C6_amended_fixed_sentences :
    (∀ m1 m2 : String,
      (determineErrorType m1).1 = (determineErrorType m2).1 →
      (determineErrorType m1).1 ≠ OcrErrorType.UNKNOWN_ERROR →
      (determineErrorType m1).2 = (determineErrorType m2).2) ∧
    (∀ e1 e2 : PdfGenerationError, e1.type = e2.type →
      getUserFriendlyErrorMessage e1 = getUserFriendlyErrorMessage e2) ∧
    (∀ m : String, strIncludes (determineErrorType m).2 m = true ∨
      (determineErrorType m).1 ≠ OcrErrorType.UNKNOWN_ERROR) := by
  refine ⟨?_, ?_, ?_⟩
  · intro m1 m2 heq hne
    unfold determineErrorType at *
    split_ifs at heq hne ⊢ <;> simp_all
  · intro e1 e2 h
    simp only [getUserFriendlyErrorMessage, h]
  · intro m
    unfold determineErrorType
    split_ifs <;> simp_all [strIncludes]
    have := listIncludes_append_self
      ("An unexpected error occurred: ".toList) m.toList
    simpa [String.toList] using this

/-- C6 amended witness: the amended theorem applied at concrete inputs. -/
theorem C6_amended_witness :
    (determineErrorType "API key missing").2 = (determineErrorType "bad API key").2 ∧
    getUserFriendlyErrorMessage { message := "x", type := .IMAGE_LOAD_ERROR } =
      getUserFriendlyErrorMessage { message := "y", type := .IMAGE_LOAD_ERROR } ∧
    (strIncludes (determineErrorType "boom").2 "boom" = true ∨
      (determineErrorType "boom").1 ≠ OcrErrorType.UNKNOWN_ERROR) :=
  ⟨C6_amended_fixed_sentences.1 "API key missing" "bad API key" (by decide) (by decide),
   C6_amended_fixed_sentences.2.1
     { message := "x", type := .IMAGE_LOAD_ERROR }
     { message := "y", type := .IMAGE_LOAD_ERROR } rfl,
   C6_amended_fixed_sentences.2.2 "boom"⟩

/-- C3: the validator accepts a file iff its size is non-zero, its
filename ends case-insensitively in one of
`.jpg/.jpeg/.png/.webp/.heic/.heif`, and its first 12 bytes match one of
the four magic-number signatures; hence it never accepts a zero-byte file
or a disallowed extension regardless of content, and rejects any
valid-extension file whose header matches no signature. -/
theorem C3_validator_accepts_iff (f : CandidateFile) :
    validationAccepts f = true ↔
      (f.bytes.length ≠ 0 ∧ specAllowedExtension f.name ∧
        specSignatureMatch f.bytes) := by
  unfold validationAccepts
  rw [← hasValidImageExtension_iff, ← analyzeMimeType_iff]
  split_ifs with h1 h2 h3 <;> simp_all

theorem isLowerHex_isHexDigitCI {c : Char} (h : isLowerHex c = true) :
    isHexDigitCI c = true := by
  simp [isLowerHex, isHexDigitCI] at *
  tauto

theorem all_lowerHex_hexCI {l : List Char} (h : l.all isLowerHex = true) :
    l.all isHexDigitCI = true := by
  rw [List.all_eq_true] at *
  exact fun c hc => isLowerHex_isHexDigitCI (h c hc)

theorem matchRun_append {p : Char → Bool} {l : List Char} {n : Nat}
    (rest : List Char) (hlen : l.length = n) (hall : l.all p = true) :
    matchRun p n (l ++ rest) = some rest := by
  induction l generalizing n with
  | nil => subst hlen; rfl
  | cons c t ih =>
    subst hlen
    simp only [List.all_cons, Bool.and_eq_true] at hall
    simpa [matchRun, hall.1] using ih rfl hall.2

theorem matchOne_cons {p : Char → Bool} {c : Char} (rest : List Char)
    (hc : p c = true) : matchOne p (c :: rest) = some rest := by
  simp [matchOne, hc]

theorem tempFileName_toList (u : UuidV4) (name : String) :
    (tempFileName u name).toList =
      u.g1 ++ '-' :: (u.g2 ++ '-' :: '4' :: (u.g3 ++ '-' :: u.variantChar ::
        (u.g4 ++ '-' :: (u.g5 ++ '-' :: (extractFilename name).toList)))) := by
  show (tempFileName u name).data = _
  simp [tempFileName, UuidV4.render, String.data_append]

/-- C10: every temp-file name `{uuid-v4}-{basename}` the OCR route
creates is matched by the UUID-v4-prefix regex of the orphan scan, for
every original filename and every well-formed v4 UUID, so a file the
pipeline leaves behind is always returned by `scanForLeftoverTempFiles`. -/
theorem C10_tempfile_name_matches_scan (u : UuidV4) (originalName : String)
    (h : u.Valid) : uuidPatternTest (tempFileName u originalName) = true := by
  obtain ⟨h1l, h1a, h2l, h2a, h3l, h3a, hv, h4l, h4a, h5l, h5a⟩ := h
  unfold uuidPatternTest
  rw [tempFileName_toList u originalName]
  rw [matchRun_append _ h1l (all_lowerHex_hexCI h1a), Option.some_bind,
    matchOne_cons _ (by simp), Option.some_bind,
    matchRun_append _ h2l (all_lowerHex_hexCI h2a), Option.some_bind,
    matchOne_cons _ (by simp), Option.some_bind,
    matchOne_cons _ (by simp), Option.some_bind,
    matchRun_append _ h3l (all_lowerHex_hexCI h3a), Option.some_bind,
    matchOne_cons _ (by simp), Option.some_bind,
    matchOne_cons _ (by rcases hv with h | h | h | h <;> simp [h]), Option.some_bind,
    matchRun_append _ h4l (all_lowerHex_hexCI h4a), Option.some_bind,
    matchOne_cons _ (by simp), Option.some_bind,
    matchRun_append _ h5l (all_lowerHex_hexCI h5a), Option.some_bind,
    matchOne_cons _ (by simp)]
  rfl

/-- C10 witness: the matching theorem applied to the concrete UUID
`123e4567-e89b-42d3-a456-426614174000` and the file name `photo.jpg`. -/
theorem C10_witness :
    (UuidV4.mk ['1','2','3','e','4','5','6','7'] ['e','8','9','b']
      ['2','d','3'] 'a' ['4','5','6']
      ['4','2','6','6','1','4','1','7','4','0','0','0']).Valid ∧
    uuidPatternTest (tempFileName
      (UuidV4.mk ['1','2','3','e','4','5','6','7'] ['e','8','9','b']
        ['2','d','3'] 'a' ['4','5','6']
        ['4','2','6','6','1','4','1','7','4','0','0','0']) "photo.jpg") = true :=
  ⟨by unfold UuidV4.Valid; decide,
   C10_tempfile_name_matches_scan
     (UuidV4.mk ['1','2','3','e','4','5','6','7'] ['e','8','9','b']
       ['2','d','3'] 'a' ['4','5','6']
       ['4','2','6','6','1','4','1','7','4','0','0','0']) "photo.jpg"
     (by unfold UuidV4.Valid; decide)⟩

theorem renderContentPage_embed_failure (oracle : AddImageOracle)
    (pair : ImageTextPair)
    (hurl : pair.imageDataUrl ≠ "" ∧ strTrim pair.imageDataUrl ≠ "")
    (c : String) (hc : oracle pair.imageDataUrl = some c) :
    (renderContentPage oracle pair).1.grayRect = true ∧
    (renderContentPage oracle pair).1.placeholderText =
      some "[ Image could not be displayed ]" := by
  unfold renderContentPage
  rw [if_pos hurl, hc]
  exact ⟨rfl, rfl⟩

theorem renderContentPage_no_image (oracle : AddImageOracle)
    (pair : ImageTextPair)
    (hurl : pair.imageDataUrl = "" ∨ strTrim pair.imageDataUrl = "") :
    (renderContentPage oracle pair).1.grayRect = true ∧
    (renderContentPage oracle pair).1.placeholderText =
      some "[ No image data available ]" := by
  unfold renderContentPage
  rw [if_neg (fun hc => hurl.elim (fun h0 => hc.1 h0) (fun h0 => hc.2 h0))]
  exact ⟨rfl, rfl⟩

theorem renderContentPage_bodyText (oracle : AddImageOracle)
    (pair : ImageTextPair) :
    (renderContentPage oracle pair).1.bodyText =
      (if pair.extractedText = "" then
        "No text could be extracted from this image."
       else pair.extractedText) := by
  unfold renderContentPage
  by_cases hcond : (pair.imageDataUrl ≠ "" ∧ strTrim pair.imageDataUrl ≠ "")
  · rw [if_pos hcond]
    cases ho : oracle pair.imageDataUrl <;> rfl
  · rw [if_neg hcond]

theorem pairEmbedError_shape (oracle : AddImageOracle) (pair : ImageTextPair)
    (line : String) (hline : pairEmbedError oracle pair = some line) :
    ∃ cause, oracle pair.imageDataUrl = some cause ∧
      line = "Failed to add image " ++ pair.filename ++ ": " ++ cause := by
  unfold pairEmbedError renderContentPage at hline
  by_cases hcond : (pair.imageDataUrl ≠ "" ∧ strTrim pair.imageDataUrl ≠ "")
  · rw [if_pos hcond] at hline
    cases hc : oracle pair.imageDataUrl with
    | none => rw [hc] at hline; simp at hline
    | some c =>
      rw [hc] at hline
      simp at hline
      exact ⟨c, rfl, hline.symm⟩
  · rw [if_neg hcond] at hline
    simp at hline

theorem createMultiPagePdf_ok_of_ne_nil (oracle : AddImageOracle)
    (pairs : List ImageTextPair) (h : pairs ≠ []) :
    ∃ doc, createMultiPagePdf oracle pairs = .ok doc := by
  have hne : pairs.isEmpty = false := by
    cases pairs with
    | nil => exact absurd rfl h
    | cons a l => rfl
  by_cases he : (pairs.filterMap (pairEmbedError oracle)).isEmpty <;>
    simp [createMultiPagePdf, hne, he]

/-- C2: `createMultiPagePdf` on a non-empty list of N pairs returns (does
not throw): one content page per pair in input order — a pair whose
embedding throws still gets its page, with the
`[ Image could not be displayed ]` placeholder — each embedding exception
recorded as a line `Failed to add image {name}: {cause}`, and exactly one
extra summary page appended listing those K lines with the
succeeded/total counts, so the document has N pages when K = 0 and N + 1
pages when K > 0. -/
theorem C2_pdf_batch_structure (oracle : AddImageOracle)
    (pairs : List ImageTextPair) (h : pairs ≠ []) :
    ∃ doc, createMultiPagePdf oracle pairs = .ok doc ∧
      doc.take pairs.length =
        pairs.map (fun p => Page.content (renderContentPage oracle p).1) ∧
      doc.length = pairs.length +
        (if (pairs.filterMap (pairEmbedError oracle)).length = 0 then 0 else 1) ∧
      (∀ p ∈ pairs, (p.imageDataUrl ≠ "" ∧ strTrim p.imageDataUrl ≠ "") →
        ∀ c, oracle p.imageDataUrl = some c →
          (renderContentPage oracle p).1.placeholderText =
            some "[ Image could not be displayed ]") ∧
      (∀ p ∈ pairs, ∀ line, pairEmbedError oracle p = some line →
        ∃ cause, oracle p.imageDataUrl = some cause ∧
          line = "Failed to add image " ++ p.filename ++ ": " ++ cause) ∧
      (pairs.filterMap (pairEmbedError oracle) = [] →
        doc = pairs.map (fun p => Page.content (renderContentPage oracle p).1)) ∧
      (pairs.filterMap (pairEmbedError oracle) ≠ [] →
        doc.drop pairs.length =
          [Page.summary
            (summaryProcessedLine pairs.length
              (pairs.filterMap (pairEmbedError oracle)).length)
            (pairs.filterMap (pairEmbedError oracle))]) := by
  have hne : pairs.isEmpty = false := by
    cases pairs with
    | nil => exact absurd rfl h
    | cons a l => rfl
  have hlmap : (pairs.map
      (fun p => Page.content (renderContentPage oracle p).1)).length =
      pairs.length := List.length_map _ _
  by_cases he : pairs.filterMap (pairEmbedError oracle) = []
  · refine ⟨pairs.map (fun p => Page.content (renderContentPage oracle p).1),
      ?_, ?_, ?_, ?_, ?_, ?_, ?_⟩
    · simp [createMultiPagePdf, hne, he]
    · rw [← hlmap, List.take_length]
    · simp [he, List.length_map]
    · intro p _ hurl c hc
      exact (renderContentPage_embed_failure oracle p hurl c hc).2
    · intro p _ line hline
      exact pairEmbedError_shape oracle p line hline
    · intro _; rfl
    · intro hcontra; exact absurd he hcontra
  · refine ⟨pairs.map (fun p => Page.content (renderContentPage oracle p).1) ++
      [Page.summary
        (summaryProcessedLine pairs.length
          (pairs.filterMap (pairEmbedError oracle)).length)
        (pairs.filterMap (pairEmbedError oracle))], ?_, ?_, ?_, ?_, ?_, ?_, ?_⟩
    · simp [createMultiPagePdf, hne, he]
    · rw [← hlmap, List.take_left]
    · have hz : (pairs.filterMap (pairEmbedError oracle)).length ≠ 0 := by
        simpa [List.length_eq_zero] using he
      simp [List.length_append, List.length_map, hz]
    · intro p _ hurl c hc
      exact (renderContentPage_embed_failure oracle p hurl c hc).2
    · intro p _ line hline
      exact pairEmbedError_shape oracle p line hline
    · intro hcontra; exact absurd hcontra he
    · intro _
      rw [← hlmap, List.drop_left]

/-- C2 witness: the structure theorem applied to two concrete pairs, one
of which fails to embed, giving a 3-page document (2 content + 1 summary). -/
theorem C2_witness :
    ∃ doc,
      createMultiPagePdf
        (fun u => if u = "data:image/jpeg;base64,BAD" then some "broken data" else none)
        [{ imageDataUrl := "data:image/png;base64,OK", extractedText := "hello",
           filename := "a.png" },
         { imageDataUrl := "data:image/jpeg;base64,BAD", extractedText := "world",
           filename := "b.jpg" }] = .ok doc ∧
      doc.length = 3 := by
  obtain ⟨doc, hdoc, -, hlen, -⟩ :=
    C2_pdf_batch_structure
      (fun u => if u = "data:image/jpeg;base64,BAD" then some "broken data" else none)
      [{ imageDataUrl := "data:image/png;base64,OK", extractedText := "hello",
         filename := "a.png" },
       { imageDataUrl := "data:image/jpeg;base64,BAD", extractedText := "world",
         filename := "b.jpg" }] (by simp)
  refine ⟨doc, hdoc, ?_⟩
  rw [hlen]
  decide

/-- C4: `createMultiPagePdf` on an empty pairs list throws a
`PdfGenerationError` of kind `PDF_GENERATION_ERROR` rather than returning
bytes, and a `/pdf/generate` request whose `ocrResults` is an empty array
receives HTTP 400, not 500 and not a PDF. -/
theorem C4_empty_input_rejected :
    (∀ oracle : AddImageOracle,
      createMultiPagePdf oracle [] =
        .error { message := "No images provided for PDF generation",
                 type := .PDF_GENERATION_ERROR }) ∧
    (∀ oracle : AddImageOracle,
      pdfGeneratePOST oracle [] =
        .badRequest "No OCR results provided for PDF generation") :=
  ⟨fun _ => rfl, fun _ => rfl⟩

/-- C5: a pair with an absent/blank image data URL renders the gray
placeholder rectangle captioned `[ No image data available ]`; a pair
whose embedding throws renders the placeholder rectangle captioned
`[ Image could not be displayed ]`; a `/pdf/generate` result whose
`imageUrl` does not start with `data:` is normalized to the empty URL, so
its page gets the `[ No image data available ]` placeholder, and as long
as some successful result exists the route answers with a PDF rather than
raising an exception. -/
theorem C5_placeholder_rendering (oracle : AddImageOracle) :
    (∀ pair : ImageTextPair,
      (pair.imageDataUrl = "" ∨ strTrim pair.imageDataUrl = "") →
      (renderContentPage oracle pair).1.grayRect = true ∧
      (renderContentPage oracle pair).1.placeholderText =
        some "[ No image data available ]") ∧
    (∀ pair : ImageTextPair,
      (pair.imageDataUrl ≠ "" ∧ strTrim pair.imageDataUrl ≠ "") →
      ∀ c, oracle pair.imageDataUrl = some c →
      (renderContentPage oracle pair).1.grayRect = true ∧
      (renderContentPage oracle pair).1.placeholderText =
        some "[ Image could not be displayed ]") ∧
    (∀ r : PdfOcrResult, ∀ u, r.imageUrl = some u →
      strStartsWith u "data:" = false →
      (buildPair r).imageDataUrl = "" ∧
      (renderContentPage oracle (buildPair r)).1.placeholderText =
        some "[ No image data available ]") ∧
    (∀ ocrResults : List PdfOcrResult, successfulResultsOf ocrResults ≠ [] →
      ∃ doc, pdfGeneratePOST oracle ocrResults = .okPdf doc) := by
  refine ⟨?_, ?_, ?_, ?_⟩
  · intro pair hurl
    exact renderContentPage_no_image oracle pair hurl
  · intro pair hurl c hc
    exact renderContentPage_embed_failure oracle pair hurl c hc
  · intro r u hu hsw
    have hempty : (buildPair r).imageDataUrl = "" := by
      by_cases h0 : u = "" <;>
        simp [buildPair, normalizeImageUrl, hu, hsw, h0]
    exact ⟨hempty,
      (renderContentPage_no_image oracle (buildPair r) (Or.inl hempty)).2⟩
  · intro ocrResults hne
    have hres : ocrResults ≠ [] := by
      intro h0
      subst h0
      exact hne rfl
    have h1 : ocrResults.isEmpty = false := by
      cases ocrResults with
      | nil => exact absurd rfl hres
      | cons a l => rfl
    have h2 : (successfulResultsOf ocrResults).isEmpty = false := by
      cases hsr : successfulResultsOf ocrResults with
      | nil => exact absurd hsr hne
      | cons a l => rfl
    have h3 : (successfulResultsOf ocrResults).map buildPair ≠ [] := by
      simp only [ne_eq, List.map_eq_nil]
      exact hne
    obtain ⟨doc, hdoc⟩ := createMultiPagePdf_ok_of_ne_nil oracle _ h3
    refine ⟨doc, ?_⟩
    simp [pdfGeneratePOST, h1, h2, hdoc]

/-- C5 witness: the placeholder theorem applied to concrete pairs — a
blank URL, a URL the library rejects, a result with a non-`data:` URL,
and a one-result request that produces a PDF. -/
theorem C5_witness :
    ((renderContentPage (fun _ => some "broken")
        { imageDataUrl := "", extractedText := "t", filename := "a.jpg" }).1.placeholderText =
      some "[ No image data available ]") ∧
    ((renderContentPage (fun _ => some "broken")
        { imageDataUrl := "data:image/jpeg;base64,AA", extractedText := "t",
          filename := "b.jpg" }).1.placeholderText =
      some "[ Image could not be displayed ]") ∧
    ((buildPair
      { fileName := "c.jpg", text := some "hello", success := true,
        imageUrl := some "http://example.com/x.png" }).imageDataUrl = "") ∧
    (∃ doc, pdfGeneratePOST (fun _ => some "broken")
      [{ fileName := "c.jpg", text := some "hello", success := true }] =
        .okPdf doc) := by
  refine ⟨?_, ?_, ?_, ?_⟩
  · exact ((C5_placeholder_rendering (fun _ => some "broken")).1
      { imageDataUrl := "", extractedText := "t", filename := "a.jpg" }
      (Or.inl rfl)).2
  · exact ((C5_placeholder_rendering (fun _ => some "broken")).2.1
      { imageDataUrl := "data:image/jpeg;base64,AA", extractedText := "t",
        filename := "b.jpg" } (by decide) "broken" rfl).2
  · exact ((C5_placeholder_rendering (fun _ => some "broken")).2.2.1
      { fileName := "c.jpg", text := some "hello", success := true,
        imageUrl := some "http://example.com/x.png" }
      "http://example.com/x.png" rfl (by decide)).1
  · exact (C5_placeholder_rendering (fun _ => some "broken")).2.2.2
      [{ fileName := "c.jpg", text := some "hello", success := true }]
      (by decide)

/-- C9: the `/pdf/generate` filter excludes every result whose `text` is
the empty string even when `success` is true; a non-empty request in
which every result has empty text gets HTTP 400 (`no successful OCR
results`); and a result that does pass the filter has non-empty text, so
the compositor's `No text could be extracted from this image.` fallback
is never applied to it. -/
theorem C9_empty_text_success_excluded (oracle : AddImageOracle) :
    (∀ results : List PdfOcrResult, ∀ r : PdfOcrResult, r.text = some "" →
      r ∉ successfulResultsOf results) ∧
    (∀ results : List PdfOcrResult, results ≠ [] →
      (∀ r ∈ results, r.text = some "") →
      pdfGeneratePOST oracle results =
        .badRequest "No successful OCR results found for PDF generation") ∧
    (∀ results : List PdfOcrResult, ∀ r ∈ successfulResultsOf results,
      (buildPair r).extractedText ≠ "" ∧
      (renderContentPage oracle (buildPair r)).1.bodyText =
        (buildPair r).extractedText) := by
  refine ⟨?_, ?_, ?_⟩
  · intro results r hr hmem
    rw [successfulResultsOf, List.mem_filter] at hmem
    simp [truthyStr, hr] at hmem
  · intro results hne hall
    have hruns : successfulResultsOf results = [] := by
      rw [successfulResultsOf, List.filter_eq_nil_iff]
      intro r hr
      simp [truthyStr, hall r hr]
    have h1 : results.isEmpty = false := by
      cases results with
      | nil => exact absurd rfl hne
      | cons a l => rfl
    simp [pdfGeneratePOST, h1, hruns]
  · intro results r hmem
    rw [successfulResultsOf, List.mem_filter] at hmem
    have := hmem.2
    simp only [Bool.and_eq_true] at this
    obtain ⟨⟨-, htext⟩, -⟩ := this
    have hne : (buildPair r).extractedText ≠ "" := by
      cases ht : r.text with
      | none => rw [ht] at htext; simp [truthyStr] at htext
      | some t =>
        rw [ht] at htext
        simp only [truthyStr] at htext
        simp only [buildPair, ht, Option.getD_some]
        simpa using htext
    refine ⟨hne, ?_⟩
    rw [renderContentPage_bodyText, if_neg hne]

/-- C9 witness: the exclusion theorem applied to a successful result with
empty text (excluded, request answered 400) and to a successful result
with text `hello` (kept, no fallback). -/
theorem C9_witness :
    ({ fileName := "a.jpg", text := some "", success := true } : PdfOcrResult) ∉
      successfulResultsOf
        [{ fileName := "a.jpg", text := some "", success := true }] ∧
    pdfGeneratePOST (fun _ => none)
      [{ fileName := "a.jpg", text := some "", success := true }] =
      .badRequest "No successful OCR results found for PDF generation" ∧
    (buildPair
      { fileName := "b.jpg", text := some "hello", success := true, imageUrl := none }).extractedText ≠ "" := by
  refine ⟨?_, ?_, ?_⟩
  · exact (C9_empty_text_success_excluded (fun _ => none)).1
      [{ fileName := "a.jpg", text := some "", success := true }]
      { fileName := "a.jpg", text := some "", success := true } rfl
  · exact (C9_empty_text_success_excluded (fun _ => none)).2.1
      [{ fileName := "a.jpg", text := some "", success := true }]
      (by decide) (by decide)
  · exact ((C9_empty_text_success_excluded (fun _ => none)).2.2
      [{ fileName := "b.jpg", text := some "hello", success := true, imageUrl := none }]
      { fileName := "b.jpg", text := some "hello", success := true, imageUrl := none }
      (by decide)).1
